import Mathlib

/-!
Shallow embedding of the publish-orchestration core of the
social-media-automation repository, together with proofs of the spec's
claims about it.

The embedding follows `src/jobs/postProcessor.js` (the BullMQ worker and
the per-platform publishers) and the scheduling side of
`src/routes/posts.js`.  Persistence (Prisma) is modelled as an explicit
list of posts carried through the worker; network I/O (axios) is
modelled by an oracle environment recording, for each remote endpoint,
whether the call succeeds and what it returns, together with an explicit
trace of the network calls attempted.  Fault injection flags model the
two places a database write can throw.
-/

namespace SMA

/-- Platform identifiers as dispatched by the `switch` in
`postProcessor.js` (lines 61-76); `UNKNOWN` stands for any string not
matched by one of the four cases (the `default` branch). -/
inductive Platform
  | LINKEDIN
  | INSTAGRAM
  | TIKTOK
  | FACEBOOK
  | UNKNOWN (label : String)
deriving DecidableEq

/-- Post lifecycle status values used by the repository
(`DRAFT`, `SCHEDULED`, `PUBLISHING`, `PUBLISHED`, `FAILED`). -/
inductive PostStatus
  | DRAFT
  | SCHEDULED
  | PUBLISHING
  | PUBLISHED
  | FAILED
deriving DecidableEq

/-- A connected social account (`socialAccounts` rows).  `expiresAt` is
the nullable credential expiry timestamp; times are modelled as `Nat`. -/
structure SocialAccount where
  platform : Platform
  isActive : Bool
  expiresAt : Option Nat
  accessToken : String
deriving DecidableEq

/-- A `contentPost` row, with the fields the worker and routes read.
Ids are `Nat` here; in the source they are non-empty cuid strings, so
the JS truthiness test `if (job.data.postId)` always passes. -/
structure ContentPost where
  id : Nat
  userId : Nat
  title : Option String
  content : String
  mediaUrls : List String
  platforms : List Platform
  status : PostStatus
  publishedAt : Option Nat
deriving DecidableEq

/-- The remote endpoints `publishToLinkedIn` and its helpers hit, used
to trace which network calls an execution attempts. -/
inductive NetCall
  | getMe
  | registerUpload
  | uploadFile
  | ugcPost
deriving DecidableEq

/-- Oracle for the remote LinkedIn API: for each endpoint, `none` /
`false` means the axios call rejects, otherwise the value the response
carries. -/
structure Net where
  meId : Option String
  registerAsset : Option String
  uploadOk : Bool
  ugcPostId : Option String
deriving DecidableEq

/-- The value `publishToLinkedIn` resolves with on success
(lines 206-210 of `postProcessor.js`). -/
structure LinkedInPublishInfo where
  platformPostId : String
  url : String
  publishedAt : Nat
deriving DecidableEq

/-- Embedding of `uploadMediaToLinkedIn` (lines 219-263): get the user
id (a `GET /me`), register the upload, transfer the bytes; any axios
rejection is rethrown unchanged.  Returns the asset URN and the trace
of calls attempted. -/
def uploadMediaToLinkedIn (net : Net) : Except String String × List NetCall :=
  match net.meId with
  | none => (.error "request failed", [NetCall.getMe])
  | some _ =>
    match net.registerAsset with
    | none => (.error "request failed", [NetCall.getMe, NetCall.registerUpload])
    | some asset =>
      if net.uploadOk then
        (.ok asset, [NetCall.getMe, NetCall.registerUpload, NetCall.uploadFile])
      else
        (.error "request failed", [NetCall.getMe, NetCall.registerUpload, NetCall.uploadFile])

/-- Embedding of `publishToLinkedIn` (lines 133-216): check credential
expiry locally (`new Date() >= account.expiresAt`, i.e. expired when
`expiresAt ≤ now`); then `GET /me`; then, when the post has media, the
two-phase upload; then `POST /ugcPosts`.  The surrounding `catch`
rethrows every failure as `LinkedIn publishing failed: <msg>`.  The
second component is the trace of network calls attempted. -/
def publishToLinkedIn (post : ContentPost) (account : SocialAccount)
    (now : Nat) (net : Net) : Except String LinkedInPublishInfo × List NetCall :=
  if (match account.expiresAt with | some e => decide (e ≤ now) | none => false) then
    (.error "LinkedIn publishing failed: LinkedIn access token expired", [])
  else
    match net.meId with
    | none => (.error "LinkedIn publishing failed: request failed", [NetCall.getMe])
    | some _ =>
      match post.mediaUrls with
      | [] =>
        match net.ugcPostId with
        | none =>
          (.error "LinkedIn publishing failed: request failed",
           [NetCall.getMe, NetCall.ugcPost])
        | some pid =>
          (.ok ⟨pid, "https://linkedin.com/feed/update/" ++ pid, now⟩,
           [NetCall.getMe, NetCall.ugcPost])
      | _ :: _ =>
        match uploadMediaToLinkedIn net with
        | (.error e, calls) =>
          (.error ("LinkedIn publishing failed: " ++ e), NetCall.getMe :: calls)
        | (.ok _, calls) =>
          match net.ugcPostId with
          | none =>
            (.error "LinkedIn publishing failed: request failed",
             NetCall.getMe :: calls ++ [NetCall.ugcPost])
          | some pid =>
            (.ok ⟨pid, "https://linkedin.com/feed/update/" ++ pid, now⟩,
             NetCall.getMe :: calls ++ [NetCall.ugcPost])

/-- Embedding of `publishToInstagram` (lines 276-280): unconditionally
throws `Instagram publishing not yet implemented`; no network call. -/
def publishToInstagram (_post : ContentPost) (_account : SocialAccount) :
    Except String LinkedInPublishInfo × List NetCall :=
  (.error "Instagram publishing not yet implemented", [])

/-- Embedding of `publishToTikTok` (lines 282-285): unconditionally
throws; no network call. -/
def publishToTikTok (_post : ContentPost) (_account : SocialAccount) :
    Except String LinkedInPublishInfo × List NetCall :=
  (.error "TikTok publishing not yet implemented", [])

/-- Embedding of `publishToFacebook` (lines 287-290): unconditionally
throws; no network call. -/
def publishToFacebook (_post : ContentPost) (_account : SocialAccount) :
    Except String LinkedInPublishInfo × List NetCall :=
  (.error "Facebook publishing not yet implemented", [])

/-- The per-platform result objects the worker accumulates in `results`:
either `{platform, status: 'success', ...publishResult}` or
`{platform, status: 'error', error}`. -/
inductive PlatformResult
  | ok (platform : Platform) (info : LinkedInPublishInfo)
  | err (platform : Platform) (error : String)
deriving DecidableEq

/-- Whether a result object has `status === 'error'`. -/
def PlatformResult.isError : PlatformResult → Bool
  | .err _ _ => true
  | .ok _ _ => false

/-- The `platform` field of a result object. -/
def PlatformResult.platform : PlatformResult → Platform
  | .err p _ => p
  | .ok p _ => p

/-- The `switch (platform)` dispatch of lines 61-76; the `default`
branch throws `Platform <p> not supported`. -/
def dispatchPublish (platform : Platform) (post : ContentPost)
    (account : SocialAccount) (now : Nat) (net : Net) :
    Except String LinkedInPublishInfo × List NetCall :=
  match platform with
  | .LINKEDIN => publishToLinkedIn post account now net
  | .INSTAGRAM => publishToInstagram post account
  | .TIKTOK => publishToTikTok post account
  | .FACEBOOK => publishToFacebook post account
  | .UNKNOWN label => (.error ("Platform " ++ label ++ " not supported"), [])

/-- One iteration of the worker's platform loop (lines 48-87): find the
active account for the platform (over the already-active-filtered
`post.user.socialAccounts`, re-checking `isActive` as the source does);
with no account push an error result and `continue`; otherwise dispatch
and convert a thrown error into an error result via the `catch`. -/
def processPlatform (platform : Platform) (post : ContentPost)
    (accounts : List SocialAccount) (now : Nat) (net : Net) :
    PlatformResult × List NetCall :=
  match accounts.find? (fun a => a.platform == platform && a.isActive) with
  | none => (.err platform "No active account", [])
  | some account =>
    match dispatchPublish platform post account now net with
    | (.ok info, calls) => (.ok platform info, calls)
    | (.error e, calls) => (.err platform e, calls)

/-- The whole `for (const platform of post.platforms)` loop: one result
per target platform, in order, network-call traces concatenated. -/
def publishAll (platforms : List Platform) (post : ContentPost)
    (accounts : List SocialAccount) (now : Nat) (net : Net) :
    List PlatformResult × List NetCall :=
  match platforms with
  | [] => ([], [])
  | p :: rest =>
    let r := processPlatform p post accounts now net
    let rs := publishAll rest post accounts now net
    (r.1 :: rs.1, r.2 ++ rs.2)

/-- Environment of one worker execution: the wall clock, the network
oracle, and fault-injection flags for the two `prisma.contentPost.update`
calls (the final status write of lines 94-100 and the error-path write
of lines 116-119). -/
structure WorkerEnv where
  now : Nat
  net : Net
  updateFails : Bool
  errorUpdateFails : Bool
deriving DecidableEq

/-- The value the worker's processor function resolves with: either the
`{status: 'already_published'}` short-circuit of line 41 or the
`{postId, results, status}` object of lines 104-108. -/
inductive WorkerReturn
  | alreadyPublished
  | finished (postId : Nat) (results : List PlatformResult) (status : String)
deriving DecidableEq

/-- Outcome of one job as the Job Queue sees it: `completed` when the
processor returns, `failed` when it throws (line 125 rethrows). -/
inductive JobOutcome
  | completed (ret : WorkerReturn)
  | failed (error : String)
deriving DecidableEq

/-- Whether the Job Queue records the job as successful. -/
def JobOutcome.isSuccess : JobOutcome → Bool
  | .completed _ => true
  | .failed _ => false

/-- Embedding of `prisma.contentPost.update({where: {id}})`: `none` when
the row does not exist (prisma throws `RecordNotFound`), otherwise the
database with the row rewritten. -/
def dbUpdatePost (db : List ContentPost) (postId : Nat)
    (f : ContentPost → ContentPost) : Option (List ContentPost) :=
  if db.any (fun p => p.id == postId) then
    some (db.map (fun p => if p.id == postId then f p else p))
  else
    none

/-- The error path of the worker (lines 110-126): before rethrowing, try
to mark the post `FAILED`; a failure of that update is swallowed by the
inner `catch` (lines 120-122), leaving the database as it was. -/
def markFailedOnError (env : WorkerEnv) (db : List ContentPost)
    (postId : Nat) : List ContentPost :=
  if env.errorUpdateFails then db
  else
    match dbUpdatePost db postId (fun p => { p with status := .FAILED }) with
    | some db2 => db2
    | none => db

/-- Embedding of the worker processor (`postWorker`, lines 15-130).
`db` is the `contentPost` table, `accounts` the post author's
`socialAccounts` rows (the prisma `include` filters them to
`isActive`).  Returns the job outcome, the database after the
execution, and the trace of network calls attempted. -/
def postWorker (env : WorkerEnv) (db : List ContentPost)
    (accounts : List SocialAccount) (postId : Nat) :
    JobOutcome × List ContentPost × List NetCall :=
  match db.find? (fun p => p.id == postId) with
  | none =>
    (.failed ("Post " ++ toString postId ++ " not found"),
     markFailedOnError env db postId, [])
  | some post =>
    if post.status == .PUBLISHED then
      (.completed .alreadyPublished, db, [])
    else
      let activeAccounts := accounts.filter (fun a => a.isActive)
      let res := publishAll post.platforms post activeAccounts env.now env.net
      let allFailed := res.1.all (fun r => r.isError)
      let hasErrors := res.1.any (fun r => r.isError)
      if env.updateFails then
        (.failed "update failed", markFailedOnError env db postId, res.2)
      else
        match dbUpdatePost db postId (fun p =>
            { p with
              status := if allFailed then .FAILED else .PUBLISHED,
              publishedAt := if allFailed then none else some env.now }) with
        | some db2 =>
          (.completed (.finished postId res.1
              (if allFailed then "failed"
               else if hasErrors then "partial_success" else "success")),
           db2, res.2)
        | none =>
          (.failed "update failed", markFailedOnError env db postId, res.2)

/-- A pending job in the queue.  `delayUntil` is the absolute time the
job becomes deliverable (enqueue time plus the `delay` option). -/
structure QJob where
  jobId : String
  jobName : String
  postId : Nat
  delayUntil : Nat
  attemptsMade : Nat
deriving DecidableEq

/-- Queue state: pending jobs plus the set of repeatable-job scheduler
keys (a separate BullMQ concept from delayed jobs). -/
structure QueueState where
  jobs : List QJob
  repeatableKeys : List String
deriving DecidableEq

/-- Model of the external library call `Queue.add(name, data, {delay,
jobId})` with an explicit `jobId`, per BullMQ's documented semantics:
when a job with the same `jobId` already exists in the queue the add is
ignored (deduplicated), it does not replace the existing job. -/
def bullAdd (q : QueueState) (jobName : String) (postId : Nat)
    (jobId : String) (delayUntil : Nat) : QueueState :=
  if q.jobs.any (fun j => j.jobId == jobId) then q
  else { q with jobs := q.jobs ++ [⟨jobId, jobName, postId, delayUntil, 0⟩] }

/-- Model of the external library call `Queue.removeRepeatable(key)`,
per BullMQ's documented semantics: it removes a repeatable-job
scheduler entry; it never removes a pending delayed job that was added
with `Queue.add`. -/
def bullRemoveRepeatable (q : QueueState) (key : String) : QueueState :=
  { q with repeatableKeys := q.repeatableKeys.filter (fun k => k != key) }

/-- Embedding of the enqueue step of `router.post('/')` in
`src/routes/posts.js` (lines 117-128): add a `publish-post` job with
`jobId = post-<id>` and `delay = scheduledFor - now` (a past time gives
a non-positive delay, i.e. deliverable immediately), so the job becomes
deliverable at `now + max(scheduledFor - now, 0)`. -/
def scheduleOnCreate (q : QueueState) (postId : Nat) (scheduledFor : Nat)
    (now : Nat) : QueueState :=
  bullAdd q "publish-post" postId ("post-" ++ toString postId)
    (now + (scheduledFor - now))

/-- Embedding of the reschedule step of `router.put('/:postId')` in
`src/routes/posts.js` (lines 215-231): call
`removeRepeatable('post-<id>')`, then, when a new `scheduledFor` is
given, add a fresh job with the same `jobId = post-<id>`. -/
def rescheduleOnUpdate (q : QueueState) (postId : Nat)
    (scheduledFor : Option Nat) (now : Nat) : QueueState :=
  let q1 := bullRemoveRepeatable q ("post-" ++ toString postId)
  match scheduledFor with
  | some t =>
    bullAdd q1 "publish-post" postId ("post-" ++ toString postId)
      (now + (t - now))
  | none => q1

/-- The result list one job execution accumulates for a post, as
computed inside `postWorker` (the `results` array). -/
def jobResults (env : WorkerEnv) (post : ContentPost)
    (accounts : List SocialAccount) : List PlatformResult :=
  (publishAll post.platforms post (accounts.filter (fun a => a.isActive))
    env.now env.net).1

/-- The trace of network calls one job execution attempts for a post. -/
def jobCalls (env : WorkerEnv) (post : ContentPost)
    (accounts : List SocialAccount) : List NetCall :=
  (publishAll post.platforms post (accounts.filter (fun a => a.isActive))
    env.now env.net).2

theorem processPlatform_platform (p : Platform) (post : ContentPost)
    (accounts : List SocialAccount) (now : Nat) (net : Net) :
    ((processPlatform p post accounts now net).1).platform = p := by
  unfold processPlatform
  rcases h : accounts.find? (fun a => a.platform == p && a.isActive) with _ | account
  · simp [h, PlatformResult.platform]
  · rcases h2 : dispatchPublish p post account now net with ⟨e | info, calls⟩ <;>
      simp [h, h2, PlatformResult.platform]

theorem publishAll_platforms (ps : List Platform) (post : ContentPost)
    (accounts : List SocialAccount) (now : Nat) (net : Net) :
    ((publishAll ps post accounts now net).1).map PlatformResult.platform = ps := by
  induction ps with
  | nil => rfl
  | cons p rest ih =>
    simp [publishAll, ih, processPlatform_platform]

theorem publishAll_length (ps : List Platform) (post : ContentPost)
    (accounts : List SocialAccount) (now : Nat) (net : Net) :
    ((publishAll ps post accounts now net).1).length = ps.length := by
  have h := publishAll_platforms ps post accounts now net
  calc ((publishAll ps post accounts now net).1).length
      = (((publishAll ps post accounts now net).1).map PlatformResult.platform).length := by
        rw [List.length_map]
    _ = ps.length := by rw [h]

theorem find?_map_update (db : List ContentPost) (postId : Nat)
    (f : ContentPost → ContentPost) (hf : ∀ p, (f p).id = p.id)
    (post : ContentPost)
    (h : db.find? (fun p => p.id == postId) = some post) :
    (db.map (fun p => if p.id == postId then f p else p)).find?
        (fun p => p.id == postId) = some (f post) := by
  induction db with
  | nil => simp at h
  | cons q rest ih =>
    cases hq : (q.id == postId) with
    | true =>
      have hpost : q = post := by
        have h2 := h
        simp only [List.find?, hq] at h2
        exact Option.some.inj h2
      have hqid : q.id = postId := by simpa using hq
      have hfq : ((f q).id == postId) = true := by simp [hf q, hqid]
      subst hpost
      simp only [List.map_cons, if_pos hq, List.find?, hfq]
    | false =>
      have h' : rest.find? (fun p => p.id == postId) = some post := by
        simpa only [List.find?, hq] using h
      have hmap : (if (q.id == postId) = true then f q else q) = q := by
        simp [hq]
      simp only [List.map_cons, hmap]
      simp only [List.find?, hq]
      exact ih h'

theorem any_id_of_find? (db : List ContentPost) (postId : Nat)
    (post : ContentPost)
    (h : db.find? (fun p => p.id == postId) = some post) :
    db.any (fun p => p.id == postId) = true := by
  have hp := List.find?_some h
  refine List.any_eq_true.mpr ⟨post, List.mem_of_find?_eq_some h, hp⟩

theorem postWorker_run (env : WorkerEnv) (db : List ContentPost)
    (accounts : List SocialAccount) (post : ContentPost)
    (hfind : db.find? (fun p => p.id == post.id) = some post)
    (hstat : post.status ≠ PostStatus.PUBLISHED)
    (hupd : env.updateFails = false) :
    postWorker env db accounts post.id =
      (.completed (.finished post.id (jobResults env post accounts)
          (if (jobResults env post accounts).all (fun r => r.isError) then "failed"
           else if (jobResults env post accounts).any (fun r => r.isError) then
             "partial_success"
           else "success")),
       db.map (fun p => if p.id == post.id then
         { p with
           status := if (jobResults env post accounts).all (fun r => r.isError) then
               PostStatus.FAILED
             else PostStatus.PUBLISHED,
           publishedAt := if (jobResults env post accounts).all (fun r => r.isError) then
               none
             else some env.now }
         else p),
       jobCalls env post accounts) := by
  have hstat' : (post.status == PostStatus.PUBLISHED) = false := by
    simpa using hstat
  have hany : db.any (fun p => p.id == post.id) = true :=
    any_id_of_find? db post.id post hfind
  simp only [postWorker, hfind, hstat', Bool.false_eq_true, if_false, hupd,
    dbUpdatePost, hany, if_true, jobResults, jobCalls]

/-- Test fixture: a network oracle on which every LinkedIn call
succeeds. -/
def netOk : Net := ⟨some "me", some "asset", true, some "p1"⟩

/-- Test fixture: clock at 50, healthy network, no fault injection. -/
def envOk : WorkerEnv := ⟨50, netOk, false, false⟩

/-- Test fixture: clock at 50, healthy network, the final status update
throws. -/
def envUpdFail : WorkerEnv := ⟨50, netOk, true, false⟩

/-- Test fixture: an active, unexpired LinkedIn account. -/
def acctLinkedIn : SocialAccount := ⟨.LINKEDIN, true, none, "tok"⟩

/-- Test fixture: an active LinkedIn account whose credential expired at
time 0. -/
def acctLinkedInExpired : SocialAccount := ⟨.LINKEDIN, true, some 0, "tok"⟩

/-- Test fixture: an active, unexpired Instagram account. -/
def acctInstagram : SocialAccount := ⟨.INSTAGRAM, true, none, "tok"⟩

/-- Test fixture: an active Instagram account whose credential expired
at time 0. -/
def acctInstagramExpired : SocialAccount := ⟨.INSTAGRAM, true, some 0, "tok"⟩

/-- Test fixture: a scheduled post targeting LinkedIn and Instagram. -/
def postMixed : ContentPost :=
  ⟨1, 10, none, "hello", [], [.LINKEDIN, .INSTAGRAM], .SCHEDULED, none⟩

/-- Test fixture: a scheduled post with an empty target platform list. -/
def postNoPlatforms : ContentPost := ⟨2, 10, none, "x", [], [], .SCHEDULED, none⟩

/-- Test fixture: a post already in `PUBLISHED` status. -/
def postPublished : ContentPost :=
  ⟨3, 10, none, "done", [], [.LINKEDIN], .PUBLISHED, some 40⟩

/-- C3: for a post whose status is already Published, the execution
returns the already-published short-circuit to the Job Queue (success),
attempts zero network calls, and leaves the database — hence every
stored per-platform result — unchanged. -/
theorem already_published_short_circuit (env : WorkerEnv)
    (db : List ContentPost) (accounts : List SocialAccount) (postId : Nat)
    (post : ContentPost)
    (hfind : db.find? (fun p => p.id == postId) = some post)
    (hpub : post.status = PostStatus.PUBLISHED) :
    postWorker env db accounts postId
      = (.completed .alreadyPublished, db, []) := by
  have hb : (post.status == PostStatus.PUBLISHED) = true := by simp [hpub]
  simp only [postWorker, hfind, hb, if_true]

/-- Witness for `already_published_short_circuit` at a concrete input. -/
theorem already_published_short_circuit_witness :
    postWorker envOk [postMixed, postPublished] [acctLinkedIn] 3
      = (.completed .alreadyPublished, [postMixed, postPublished], []) :=
  already_published_short_circuit envOk [postMixed, postPublished]
    [acctLinkedIn] 3 postPublished rfl rfl

/-- C2 counterexample: executing the worker for a job whose post does
not exist reports the job as failed to the Job Queue, not as a
successful no-op. -/
theorem missing_post_reports_failure :
    postWorker envOk [] [] 7 = (.failed "Post 7 not found", [], [])
    ∧ (JobOutcome.failed "Post 7 not found").isSuccess = false := by
  exact ⟨rfl, rfl⟩

/-- C2 amended: for a job whose referenced post no longer exists, the
worker throws `Post <id> not found`, so the job is reported failed to
the Job Queue; no platform call is made and no post state is mutated
(the error-path update targets the missing row, throws, and is
swallowed). -/
theorem missing_post_fails_job (env : WorkerEnv) (db : List ContentPost)
    (accounts : List SocialAccount) (postId : Nat)
    (h : db.find? (fun p => p.id == postId) = none) :
    postWorker env db accounts postId
      = (.failed ("Post " ++ toString postId ++ " not found"), db, []) := by
  have hany : db.any (fun p => p.id == postId) = false := by
    cases hA : db.any (fun p => p.id == postId) with
    | false => rfl
    | true =>
      obtain ⟨x, hx, hpx⟩ := List.any_eq_true.mp hA
      exact absurd hpx (List.find?_eq_none.mp h x hx)
  have hmark : markFailedOnError env db postId = db := by
    simp [markFailedOnError, dbUpdatePost, hany]
  simp only [postWorker, h, hmark]

/-- Witness for `missing_post_fails_job` at a concrete input. -/
theorem missing_post_fails_job_witness :
    postWorker envOk [postMixed] [] 7
      = (.failed "Post 7 not found", [postMixed], []) :=
  missing_post_fails_job envOk [postMixed] [] 7 rfl

/-- C6: for a target platform with no active account, the loop records
`{platform, status: 'error', error: 'No active account'}` and makes no
network call for that platform. -/
theorem no_active_account_short_circuit (platform : Platform)
    (post : ContentPost) (accounts : List SocialAccount) (now : Nat)
    (net : Net)
    (h : accounts.find? (fun a => a.platform == platform && a.isActive) = none) :
    processPlatform platform post accounts now net
      = (.err platform "No active account", []) := by
  simp [processPlatform, h]

/-- Witness for `no_active_account_short_circuit` at a concrete input. -/
theorem no_active_account_short_circuit_witness :
    processPlatform Platform.TIKTOK postMixed [acctLinkedIn] 50 netOk
      = (.err Platform.TIKTOK "No active account", []) :=
  no_active_account_short_circuit Platform.TIKTOK postMixed [acctLinkedIn]
    50 netOk rfl

/-- C7 counterexample: publishers signal expected failures by throwing,
not by returning an Error-classified result: the Instagram adapter
throws its not-implemented failure, and the LinkedIn adapter throws on
an expired credential (an expected auth failure). -/
theorem publisher_throws_on_expected_failure :
    (publishToInstagram postMixed acctInstagram).1
      = Except.error "Instagram publishing not yet implemented"
    ∧ (publishToLinkedIn postMixed acctLinkedInExpired 50 netOk).1
      = Except.error "LinkedIn publishing failed: LinkedIn access token expired" := by
  exact ⟨rfl, rfl⟩

/-- C7 amended: publishers signal every expected remote failure by
throwing; the worker's per-platform catch recovers the thrown error and
records it as that platform's Error result. -/
theorem thrown_publisher_error_recorded (platform : Platform)
    (post : ContentPost) (account : SocialAccount)
    (accounts : List SocialAccount) (now : Nat) (net : Net) (e : String)
    (calls : List NetCall)
    (hacc : accounts.find? (fun a => a.platform == platform && a.isActive)
      = some account)
    (hdisp : dispatchPublish platform post account now net
      = (Except.error e, calls)) :
    processPlatform platform post accounts now net
      = (.err platform e, calls) := by
  simp [processPlatform, hacc, hdisp]

/-- Witness for `thrown_publisher_error_recorded` at a concrete input. -/
theorem thrown_publisher_error_recorded_witness :
    processPlatform Platform.INSTAGRAM postMixed [acctInstagram] 50 netOk
      = (.err Platform.INSTAGRAM "Instagram publishing not yet implemented", []) :=
  thrown_publisher_error_recorded Platform.INSTAGRAM postMixed acctInstagram
    [acctInstagram] 50 netOk "Instagram publishing not yet implemented" []
    rfl rfl

/-- The only credential-expiry classification the source can record:
the message `publishToLinkedIn` throws from its local expiry check. -/
def isCredentialExpiredMsg (e : String) : Bool :=
  e == "LinkedIn publishing failed: LinkedIn access token expired"

/-- C8 counterexample: for the Instagram platform with a resolved
active account whose credential expired at time 0, the recorded result
at time 50 is the stub's not-implemented error, not a credential-expiry
classification — only the LinkedIn adapter checks expiry. -/
theorem expired_credential_not_classified_for_stub :
    processPlatform Platform.INSTAGRAM postMixed [acctInstagramExpired] 50 netOk
      = (.err Platform.INSTAGRAM "Instagram publishing not yet implemented", [])
    ∧ isCredentialExpiredMsg "Instagram publishing not yet implemented" = false := by
  exact ⟨rfl, rfl⟩

/-- C8 amended: for the LinkedIn platform with a resolved account whose
credential expiry is set and at or before the current time, the loop
records the thrown expiry error as an Error result and attempts no
network call; the other platform adapters are stubs that do not check
expiry. -/
theorem linkedin_expired_credential_no_call (post : ContentPost)
    (accounts : List SocialAccount) (account : SocialAccount) (now : Nat)
    (net : Net) (e : Nat)
    (hacc : accounts.find?
        (fun a => a.platform == Platform.LINKEDIN && a.isActive) = some account)
    (hexp : account.expiresAt = some e) (hle : e ≤ now) :
    processPlatform Platform.LINKEDIN post accounts now net
      = (.err Platform.LINKEDIN
          "LinkedIn publishing failed: LinkedIn access token expired", []) := by
  simp [processPlatform, hacc, dispatchPublish, publishToLinkedIn, hexp, hle]

/-- Witness for `linkedin_expired_credential_no_call` at a concrete
input. -/
theorem linkedin_expired_credential_no_call_witness :
    processPlatform Platform.LINKEDIN postMixed [acctLinkedInExpired] 50 netOk
      = (.err Platform.LINKEDIN
          "LinkedIn publishing failed: LinkedIn access token expired", []) :=
  linkedin_expired_credential_no_call postMixed [acctLinkedInExpired]
    acctLinkedInExpired 50 netOk 0 rfl rfl (by decide)

/-- C1: for a post with a non-empty target platform list, letting total
be the number of target platforms and failed the number of per-platform
results with error outcome: when failed = total the post ends with
status `FAILED` and a null published timestamp; when failed < total
(including zero failures and partial success) it ends with status
`PUBLISHED` and its published timestamp set to the current time. -/
theorem aggregation_policy (env : WorkerEnv) (db : List ContentPost)
    (accounts : List SocialAccount) (post : ContentPost)
    (hfind : db.find? (fun p => p.id == post.id) = some post)
    (hstat : post.status ≠ PostStatus.PUBLISHED)
    (_hne : post.platforms ≠ [])
    (hupd : env.updateFails = false) :
    ((jobResults env post accounts).countP (fun r => r.isError)
        = post.platforms.length →
      ((postWorker env db accounts post.id).2.1).find? (fun p => p.id == post.id)
        = some { post with status := PostStatus.FAILED, publishedAt := none })
    ∧ ((jobResults env post accounts).countP (fun r => r.isError)
        < post.platforms.length →
      ((postWorker env db accounts post.id).2.1).find? (fun p => p.id == post.id)
        = some { post with
                 status := PostStatus.PUBLISHED,
                 publishedAt := some env.now }) := by
  have hrun := postWorker_run env db accounts post hfind hstat hupd
  have hlen : (jobResults env post accounts).length = post.platforms.length := by
    simpa [jobResults] using publishAll_length post.platforms post
      (accounts.filter (fun a => a.isActive)) env.now env.net
  constructor
  · intro hcount
    have hall : (jobResults env post accounts).all (fun r => r.isError) = true := by
      apply List.all_eq_true.mpr
      intro r hr
      have hfull : (jobResults env post accounts).countP (fun r => r.isError)
          = (jobResults env post accounts).length := by
        rw [hlen]; exact hcount
      exact List.countP_eq_length.mp hfull r hr
    rw [hrun]
    simp only [hall, if_true]
    exact find?_map_update db post.id
      (fun p => { p with status := PostStatus.FAILED, publishedAt := none })
      (fun p => rfl) post hfind
  · intro hlt
    have hall : (jobResults env post accounts).all (fun r => r.isError) = false := by
      cases hA : (jobResults env post accounts).all (fun r => r.isError) with
      | false => rfl
      | true =>
        have hfull : (jobResults env post accounts).countP (fun r => r.isError)
            = (jobResults env post accounts).length :=
          List.countP_eq_length.mpr (fun a ha => List.all_eq_true.mp hA a ha)
        rw [hlen] at hfull
        omega
    rw [hrun]
    simp only [hall, Bool.false_eq_true, if_false]
    exact find?_map_update db post.id
      (fun p => { p with status := PostStatus.PUBLISHED, publishedAt := some env.now })
      (fun p => rfl) post hfind

/-- Witness for `aggregation_policy` at a concrete input: one platform
succeeds and one fails, so failed < total and the post ends Published
with its timestamp set. -/
theorem aggregation_policy_witness :
    (jobResults envOk postMixed [acctLinkedIn, acctInstagram]).countP
        (fun r => r.isError) < postMixed.platforms.length
    ∧ ((postWorker envOk [postMixed] [acctLinkedIn, acctInstagram]
          postMixed.id).2.1).find? (fun p => p.id == postMixed.id)
      = some { postMixed with
               status := PostStatus.PUBLISHED,
               publishedAt := some envOk.now } :=
  ⟨by decide,
   (aggregation_policy envOk [postMixed] [acctLinkedIn, acctInstagram]
      postMixed rfl (by decide) (by decide) rfl).2 (by decide)⟩

/-- C4: when the final persistence step completes, the job is reported
successful to the Job Queue regardless of per-platform outcomes, the
return value carries the accumulated results, and the result list has
exactly one entry per target platform in order — a platform-level
failure neither fails the job nor prevents any other platform's
attempt. -/
theorem platform_failures_do_not_fail_job (env : WorkerEnv)
    (db : List ContentPost) (accounts : List SocialAccount)
    (post : ContentPost)
    (hfind : db.find? (fun p => p.id == post.id) = some post)
    (hstat : post.status ≠ PostStatus.PUBLISHED)
    (hupd : env.updateFails = false) :
    ((postWorker env db accounts post.id).1).isSuccess = true
    ∧ (postWorker env db accounts post.id).1
      = JobOutcome.completed (WorkerReturn.finished post.id
          (jobResults env post accounts)
          (if (jobResults env post accounts).all (fun r => r.isError) then
             "failed"
           else if (jobResults env post accounts).any (fun r => r.isError) then
             "partial_success"
           else "success"))
    ∧ (jobResults env post accounts).map PlatformResult.platform
      = post.platforms := by
  have hrun := postWorker_run env db accounts post hfind hstat hupd
  refine ⟨?_, ?_, ?_⟩
  · rw [hrun]
    rfl
  · rw [hrun]
  · simpa [jobResults] using publishAll_platforms post.platforms post
      (accounts.filter (fun a => a.isActive)) env.now env.net

/-- Witness for `platform_failures_do_not_fail_job` at a concrete
input: Instagram's publisher throws, LinkedIn's succeeds, and the job
completes as a partial success with one result per platform. -/
theorem platform_failures_do_not_fail_job_witness :
    ((postWorker envOk [postMixed] [acctLinkedIn, acctInstagram]
        postMixed.id).1).isSuccess = true
    ∧ (postWorker envOk [postMixed] [acctLinkedIn, acctInstagram]
        postMixed.id).1
      = JobOutcome.completed (WorkerReturn.finished postMixed.id
          (jobResults envOk postMixed [acctLinkedIn, acctInstagram])
          (if (jobResults envOk postMixed
                [acctLinkedIn, acctInstagram]).all (fun r => r.isError) then
             "failed"
           else if (jobResults envOk postMixed
                [acctLinkedIn, acctInstagram]).any (fun r => r.isError) then
             "partial_success"
           else "success"))
    ∧ (jobResults envOk postMixed [acctLinkedIn, acctInstagram]).map
        PlatformResult.platform = postMixed.platforms :=
  platform_failures_do_not_fail_job envOk [postMixed]
    [acctLinkedIn, acctInstagram] postMixed rfl (by decide) rfl

/-- C5 counterexample: when the final persistence step throws, the
error path does mutate post state: the post that was `SCHEDULED` before
the job is set to `FAILED`, contradicting the claim that no post status
mutation happens on the job-level error path. -/
theorem persistence_error_mutates_status :
    postMixed.status = PostStatus.SCHEDULED
    ∧ (postWorker envUpdFail [postMixed] [acctLinkedIn] 1).1
      = JobOutcome.failed "update failed"
    ∧ (postWorker envUpdFail [postMixed] [acctLinkedIn] 1).2.1
      = [{ postMixed with status := PostStatus.FAILED }] := by
  exact ⟨rfl, rfl, rfl⟩

/-- C5 amended: when the final persistence step throws, the job is
reported failed to the Job Queue for retry, and before rethrowing the
worker attempts a best-effort update setting the post's status to
`FAILED`; the post keeps its previous state only when that error-path
update also throws (its failure is swallowed). -/
theorem persistence_failure_path (env : WorkerEnv) (db : List ContentPost)
    (accounts : List SocialAccount) (post : ContentPost)
    (hfind : db.find? (fun p => p.id == post.id) = some post)
    (hstat : post.status ≠ PostStatus.PUBLISHED)
    (hupd : env.updateFails = true) :
    (postWorker env db accounts post.id).1 = JobOutcome.failed "update failed"
    ∧ (postWorker env db accounts post.id).2.1
      = (if env.errorUpdateFails then db
         else db.map (fun p =>
           if p.id == post.id then { p with status := PostStatus.FAILED }
           else p)) := by
  have hstat' : (post.status == PostStatus.PUBLISHED) = false := by
    simpa using hstat
  have hany : db.any (fun p => p.id == post.id) = true :=
    any_id_of_find? db post.id post hfind
  constructor <;>
    simp only [postWorker, hfind, hstat', Bool.false_eq_true, if_false, hupd,
      if_true, markFailedOnError, dbUpdatePost, hany]

/-- Witness for `persistence_failure_path` at a concrete input. -/
theorem persistence_failure_path_witness :
    (postWorker envUpdFail [postMixed] [acctLinkedIn] postMixed.id).1
      = JobOutcome.failed "update failed"
    ∧ (postWorker envUpdFail [postMixed] [acctLinkedIn] postMixed.id).2.1
      = (if envUpdFail.errorUpdateFails then [postMixed]
         else [postMixed].map (fun p =>
           if p.id == postMixed.id then { p with status := PostStatus.FAILED }
           else p)) :=
  persistence_failure_path envUpdFail [postMixed] [acctLinkedIn] postMixed
    rfl (by decide) rfl

/-- C10: for a post whose target platform list is empty, the job
records zero per-platform results, attempts zero network calls, and —
because `every` on an empty array is true — takes the all-failed branch
vacuously: status `FAILED`, published timestamp null. -/
theorem empty_platforms_vacuous_failure (env : WorkerEnv)
    (db : List ContentPost) (accounts : List SocialAccount)
    (post : ContentPost)
    (hfind : db.find? (fun p => p.id == post.id) = some post)
    (hstat : post.status ≠ PostStatus.PUBLISHED)
    (hplat : post.platforms = [])
    (hupd : env.updateFails = false) :
    (postWorker env db accounts post.id).1
      = JobOutcome.completed (WorkerReturn.finished post.id [] "failed")
    ∧ ((postWorker env db accounts post.id).2.1).find? (fun p => p.id == post.id)
      = some { post with status := PostStatus.FAILED, publishedAt := none }
    ∧ (postWorker env db accounts post.id).2.2 = [] := by
  have hrun := postWorker_run env db accounts post hfind hstat hupd
  have hres : jobResults env post accounts = [] := by
    simp [jobResults, hplat, publishAll]
  have hcalls : jobCalls env post accounts = [] := by
    simp [jobCalls, hplat, publishAll]
  refine ⟨?_, ?_, ?_⟩
  · rw [hrun]
    simp [hres]
  · rw [hrun]
    have hmap := find?_map_update db post.id
      (fun p => { p with status := PostStatus.FAILED, publishedAt := none })
      (fun p => rfl) post hfind
    simpa [hres] using hmap
  · rw [hrun]
    simpa using hcalls

/-- Witness for `empty_platforms_vacuous_failure` at a concrete
input. -/
theorem empty_platforms_vacuous_failure_witness :
    (postWorker envOk [postNoPlatforms] [] postNoPlatforms.id).1
      = JobOutcome.completed (WorkerReturn.finished postNoPlatforms.id [] "failed")
    ∧ ((postWorker envOk [postNoPlatforms] [] postNoPlatforms.id).2.1).find?
        (fun p => p.id == postNoPlatforms.id)
      = some { postNoPlatforms with
               status := PostStatus.FAILED,
               publishedAt := none }
    ∧ (postWorker envOk [postNoPlatforms] [] postNoPlatforms.id).2.2 = [] :=
  empty_platforms_vacuous_failure envOk [postNoPlatforms] [] postNoPlatforms
    rfl (by decide) rfl rfl

/-- C9: evaluating the scheduling code at the failing input — create
post 1 scheduled for t1 = 100 (at time 0), then update it to t2 = 200
(at time 50, before t1 elapses).  Exactly one pending job remains, but
it is still scheduled for t1 = 100: `removeRepeatable` does not remove
the delayed job, and the re-add with the same `jobId` is ignored as a
duplicate, so the reschedule never takes effect. -/
theorem reschedule_keeps_old_job :
    (rescheduleOnUpdate (scheduleOnCreate ⟨[], []⟩ 1 100 0) 1 (some 200) 50).jobs
      = [⟨"post-1", "publish-post", 1, 100, 0⟩] := by
  exact rfl

end SMA
